import Mathlib

/-!
Shallow embedding of `src/project/src/components/InterviewScreen.jsx`.

The component is a single-threaded event-driven state machine: React state
(`currentQuestionIndex`, `recording`, `timeLeft`, `uploading`, `analyzing`)
plus mutable refs (`mediaRecorderRef`, `audioChunksRef`, `streamRef`,
`timerRef`, `uploadLockedRef`).  We embed it as a record `SessionState` and a
step function over external events (interval ticks, user clicks, recorder
events, fetch resolutions).  Async functions suspend only at `await` points;
the one suspension that matters is `handleNextQuestion` awaiting the
`waitForStop` promise, which it installs by overwriting `recorder.onstop`.
We model the current `onstop` target as a boolean (`onstopForced`): `false`
means the natural handler `handleRecordingStop` installed by `startRecording`,
`true` means the resolver of a pending `handleNextQuestion`.

Modelling conventions:
- React closures: a callback reads the state values of the render that
  created it.  This matters in exactly one place: the interval callback
  created inside `startRecording` (line 107) captures that render's
  `stopRecording`, whose `recording` snapshot is necessarily `false` (the
  guard at line 60 admitted the `startRecording` call), so the timer's
  `stopRecording()` invocation can never pass the guard at line 124 — timer
  expiry only clamps the displayed time to zero and never stops the
  recorder, sets the lock, or queues an `onstop` event.  We embed
  `stopRecording` with the captured `recording` snapshot as an explicit
  argument, the interval callback passing `false`.  Handlers wired to the
  current UI (the Next button's `onClick`, the index-change effect) run from
  the latest render, and `ref` reads are always current, so everywhere else
  the model's current state is what the code reads.  (A click racing the
  re-render could still see a stale `recording = true` in
  `handleNextQuestion`; the only extra effect would be a second
  `recorder.stop()` on an already-inactive recorder, a no-op that fires no
  second `onstop`, so the outcome is the same.)
- `setInterval` handles: `startRecording` stores a fresh interval id in
  `timerRef` without clearing the previous one, so intervals can leak; we
  track the number of live intervals (`activeTimers`) and whether
  `timerRef.current` still points at a live one (`timerRefLive`).  A `tick`
  event is one live interval firing its callback once.
- Network calls are split into a request emission (recorded in the `uploads`
  log / `analyzeCalls` counter at `fetch` time) and a later resolution event
  carrying success or failure.
- Chunk payloads are lists of chunk sizes; the empty list is the empty blob.
- Mime-type negotiation, the audio-track precondition and camera acquisition
  are outside the modelled claims; we assume a stream with audio was acquired
  (`streamSet`), matching the component after `startCamera` succeeds.
-/

/-- A question as supplied in session data: `{ id, text, estimated_seconds }`.
`estimated_seconds` may be absent. -/
structure Question where
  id : Nat
  text : String
  estimatedSeconds : Option Nat
deriving Repr, DecidableEq

/-- Line 104: `const questionTime = currentQuestion?.estimated_seconds || 90`.
JavaScript `||` treats `0`, `undefined` and a missing question as falsy. -/
def questionTime (q : Option Question) : Nat :=
  match q with
  | none => 90
  | some q =>
    match q.estimatedSeconds with
    | none => 90
    | some 0 => 90
    | some n => n

/-- The component state: React state, refs, and the observable output log. -/
structure SessionState where
  /-- Value of `sessionData.questions || []` (line 19). -/
  questions : List Question
  /-- React state `currentQuestionIndex` (line 5). -/
  idx : Nat
  /-- React state `recording` (line 6). -/
  recording : Bool
  /-- React state `timeLeft` (line 7). -/
  timeLeft : Nat
  /-- React state `uploading` (line 8). -/
  uploading : Bool
  /-- React state `analyzing` (line 9). -/
  analyzing : Bool
  /-- Whether `streamRef.current` is non-null (line 15). -/
  streamSet : Bool
  /-- Ref `audioChunksRef.current`, as the list of accepted chunk sizes (line 14). -/
  chunks : List Nat
  /-- Whether `mediaRecorderRef.current` is non-null (line 13). -/
  recorderPresent : Bool
  /-- Current `recorder.onstop` target: `false` = `handleRecordingStop`
  (installed at line 98), `true` = the `waitForStop` resolver installed by
  `handleNextQuestion` (line 145). -/
  onstopForced : Bool
  /-- Whether `recorder.stop()` was called and its `onstop` event has not yet been
  delivered. -/
  stopPending : Bool
  /-- Ref `uploadLockedRef.current` (line 17). -/
  uploadLocked : Bool
  /-- Number of live `setInterval` handles (line 107); `startRecording`
  overwrites `timerRef.current` without clearing, so old intervals leak. -/
  activeTimers : Nat
  /-- Whether `timerRef.current` points at a live interval. -/
  timerRefLive : Bool
  /-- An upload `fetch` (line 193) is in flight. -/
  inFlightUpload : Bool
  /-- An analyze `fetch` (line 219) is in flight. -/
  inFlightAnalyze : Bool
  /-- Log of upload requests sent: (question id, payload chunk sizes). -/
  uploads : List (Nat × List Nat)
  /-- Number of analyze requests sent. -/
  analyzeCalls : Nat
  /-- Number of `onComplete()` invocations. -/
  completeCalls : Nat
deriving Repr, DecidableEq

/-- Value of `currentQuestion.id` at upload time (line 194); the guarded scenarios keep
the index in range, so the default is never observed there. -/
def qidAt (s : SessionState) : Nat :=
  match s.questions.get? s.idx with
  | some q => q.id
  | none => 0

/-- External events driving the component. -/
inductive Event where
  /-- One live interval fires its 1-second callback (line 107). -/
  | tick
  /-- The user clicks the Next button (line 272); the button is disabled
  while `uploading || analyzing` (line 273). -/
  | clickNext
  /-- The recorder fires `ondataavailable` with a chunk of this size. -/
  | dataAvailable (size : Nat)
  /-- The recorder delivers its `onstop` event. -/
  | stopFired
  /-- The in-flight upload `fetch` resolves; `ok` is `response.ok`. -/
  | uploadResult (ok : Bool)
  /-- The in-flight analyze `fetch` resolves; `ok` is `response.ok`. -/
  | analyzeResult (ok : Bool)
deriving Repr, DecidableEq

/-- Function `startRecording` (lines 59-121).  Returns unchanged if there is no stream
or a recording is active (line 60); otherwise clears the chunk buffer, resets
the upload lock, constructs a fresh recorder with `onstop =
handleRecordingStop`, starts it, arms the countdown from `questionTime`, and
stores a new interval id in `timerRef` (leaking any previous live one). -/
def startRecording (s : SessionState) : SessionState :=
  if !s.streamSet || s.recording then s
  else
    { s with
      chunks := []
      uploadLocked := false
      recorderPresent := true
      onstopForced := false
      stopPending := false
      recording := true
      timeLeft := questionTime (s.questions.get? s.idx)
      activeTimers := s.activeTimers + 1
      timerRefLive := true }

/-- Function `stopRecording` (lines 123-134), with the `recording` value seen
by the caller's closure passed explicitly as `recSnapshot`.  If a recorder
exists and the snapshot is true: set the upload lock, request the recorder
stop (queuing its `onstop` event), clear the recording flag, and clear the
interval held in `timerRef`.  Its only caller is the interval callback, whose
closure always snapshots `recording = false`, so the body is dead code in the
running component. -/
def stopRecording (recSnapshot : Bool) (s : SessionState) : SessionState :=
  if s.recorderPresent && recSnapshot then
    { s with
      uploadLocked := true
      stopPending := true
      recording := false
      activeTimers := if s.timerRefLive then s.activeTimers - 1 else s.activeTimers
      timerRefLive := false }
  else s

/-- The interval callback (lines 107-115): `setTimeLeft(prev => if prev <= 1
then stopRecording(); 0 else prev - 1)`.  The `stopRecording` it invokes is
the stale closure whose `recording` snapshot is `false`, so on expiry the
time is clamped to zero and nothing else happens. -/
def tickStep (s : SessionState) : SessionState :=
  if s.activeTimers = 0 then s
  else if s.timeLeft ≤ 1 then { stopRecording false s with timeLeft := 0 }
  else { s with timeLeft := s.timeLeft - 1 }

/-- Function `uploadAnswer` up to its `await fetch` (lines 186-196): set `uploading`,
send the multipart POST for the current question id, leaving the fetch in
flight. -/
def uploadAnswerStart (payload : List Nat) (s : SessionState) : SessionState :=
  { s with
    uploading := true
    uploads := s.uploads ++ [(qidAt s, payload)]
    inFlightUpload := true }

/-- Function `handleRecordingStop` (lines 171-183): if the lock is set, clear it and
return; if there are no chunks, return; otherwise upload the assembled blob. -/
def handleRecordingStopStep (s : SessionState) : SessionState :=
  if s.uploadLocked then { s with uploadLocked := false }
  else if s.chunks = [] then s
  else uploadAnswerStart s.chunks s

/-- Resumption of `handleNextQuestion` after `await waitForStop` (lines
157-167): upload an empty blob if no chunks accumulated, else the assembled
blob. -/
def forcedResume (s : SessionState) : SessionState :=
  if s.chunks = [] then uploadAnswerStart [] s
  else uploadAnswerStart s.chunks s

/-- Delivery of the recorder `onstop` event: dispatch to whatever handler is
currently installed on `recorder.onstop`. -/
def stopFiredStep (s : SessionState) : SessionState :=
  if s.stopPending then
    let s1 := { s with stopPending := false }
    if s1.onstopForced then forcedResume s1 else handleRecordingStopStep s1
  else s

/-- Function `handleNextQuestion` up to its `await waitForStop` (lines 136-155), gated
by the Next button being enabled (line 273).  Sets the lock, returns if no
recorder exists, overwrites `recorder.onstop` with the `waitForStop` resolver
(abandoning any earlier resolver), and if recording is active clears the flag
and requests the recorder stop.  It does not touch `timerRef`. -/
def clickNextStep (s : SessionState) : SessionState :=
  if s.uploading || s.analyzing then s
  else
    let s1 := { s with uploadLocked := true }
    if !s1.recorderPresent then s1
    else
      let s2 := { s1 with onstopForced := true }
      if s2.recording then { s2 with recording := false, stopPending := true }
      else s2

/-- Resolution of the upload fetch (lines 198-211).  On success: advance the
index if questions remain (the index-change effect at lines 30-34 then runs
`startRecording` after `uploading` is cleared), else run `analyzeInterview` up
to its `await fetch` (lines 214-222), keeping `uploading` set until the
awaited analysis resolves.  On failure: surface the error; the `finally`
clears `uploading`; nothing else changes. -/
def uploadResultStep (ok : Bool) (s : SessionState) : SessionState :=
  if s.inFlightUpload then
    let s1 := { s with inFlightUpload := false }
    if ok then
      if s1.idx + 1 < s1.questions.length then
        startRecording { s1 with idx := s1.idx + 1, uploading := false }
      else
        { s1 with
          analyzing := true
          analyzeCalls := s1.analyzeCalls + 1
          inFlightAnalyze := true }
    else { s1 with uploading := false }
  else s

/-- Resolution of the analyze fetch (lines 224-231): `onComplete()` is invoked
in the success branch and in the catch branch alike; then `uploadAnswer`'s
`finally` clears `uploading`. -/
def analyzeResultStep (_ok : Bool) (s : SessionState) : SessionState :=
  if s.inFlightAnalyze then
    { s with
      inFlightAnalyze := false
      completeCalls := s.completeCalls + 1
      uploading := false }
  else s

/-- Handler `ondataavailable` (lines 94-96): append any chunk of non-zero size while
the recorder can still emit (active, or stopped with its final events not yet
delivered). -/
def dataStep (size : Nat) (s : SessionState) : SessionState :=
  if s.recorderPresent && (s.recording || s.stopPending) && decide (0 < size) then
    { s with chunks := s.chunks ++ [size] }
  else s

/-- One event-loop step. -/
def step (s : SessionState) : Event → SessionState
  | Event.tick => tickStep s
  | Event.clickNext => clickNextStep s
  | Event.dataAvailable n => dataStep n s
  | Event.stopFired => stopFiredStep s
  | Event.uploadResult ok => uploadResultStep ok s
  | Event.analyzeResult ok => analyzeResultStep ok s

/-- Run a sequence of events. -/
def run (s : SessionState) (es : List Event) : SessionState :=
  es.foldl step s

/-- The pristine component state after mount, with the camera acquired. -/
def baseState (qs : List Question) : SessionState :=
  { questions := qs
    idx := 0
    recording := false
    timeLeft := 0
    uploading := false
    analyzing := false
    streamSet := true
    chunks := []
    recorderPresent := false
    onstopForced := false
    stopPending := false
    uploadLocked := false
    activeTimers := 0
    timerRefLive := false
    inFlightUpload := false
    inFlightAnalyze := false
    uploads := []
    analyzeCalls := 0
    completeCalls := 0 }

/-- State after the mount effects: camera ready, and the index effect (lines
30-34) has started recording for question 0 when one exists. -/
def initState (qs : List Question) : SessionState :=
  if (qs.get? 0).isSome then startRecording (baseState qs) else baseState qs

/-! Theorems: claims C1-C10 settled against the embedding. -/

/-- A two-question session, 5 seconds each. -/
def demoTwoQ : List Question :=
  [⟨1, "Tell me about yourself", some 5⟩, ⟨2, "Why this role", some 5⟩]

/-- Per-question event block of a user-driven session run: a data burst of
size `c` (0 meaning no chunk was delivered), the forced advance, the
recorder's stop completion, and the successful upload response. -/
def answerTrace (c : Nat) : List Event :=
  [Event.dataAvailable c, Event.clickNext, Event.stopFired, Event.uploadResult true]

/-- Full-session event trace: one `answerTrace` per question, the last
followed by the analysis response. -/
def fullTrace : List Nat → List Event
  | [] => []
  | [c] => answerTrace c ++ [Event.analyzeResult true]
  | c :: cs => answerTrace c ++ fullTrace cs

/-- Payload assembled for a question whose single data event had size `c`:
the empty blob when no chunk was accepted. -/
def payloadOf (c : Nat) : List Nat := if c = 0 then [] else [c]

/-- Identifier of question `i` of the session. -/
def qidOf (qs : List Question) (i : Nat) : Nat :=
  match qs.get? i with
  | some q => q.id
  | none => 0

/-- The component state while recording question `i` with upload log `ups`
and `t` live intervals: the shape the component has at the start of every
question of a user-driven run. -/
def midState (qs : List Question) (i : Nat) (ups : List (Nat × List Nat)) (t : Nat) :
    SessionState :=
  { questions := qs
    idx := i
    recording := true
    timeLeft := questionTime (qs.get? i)
    uploading := false
    analyzing := false
    streamSet := true
    chunks := []
    recorderPresent := true
    onstopForced := false
    stopPending := false
    uploadLocked := false
    activeTimers := t
    timerRefLive := true
    inFlightUpload := false
    inFlightAnalyze := false
    uploads := ups
    analyzeCalls := 0
    completeCalls := 0 }

/-- Running an appended trace runs the pieces in order. -/
theorem run_append (s : SessionState) (a b : List Event) :
    run s (a ++ b) = run (run s a) b :=
  List.foldl_append step s a b

/-- The initial state is the canonical recording state for question 0. -/
theorem initState_eq_midState (qs : List Question) (h : (qs.get? 0).isSome = true) :
    initState qs = midState qs 0 [] 1 := by
  cases qs with
  | nil => simp at h
  | cons q qs2 =>
      unfold initState baseState startRecording midState
      simp

/-- Answering question `i` (data, forced advance, stop completion, upload
success) moves the component to recording question `i + 1`, appending exactly
one upload for question `i` and leaking one interval. -/
theorem answerTrace_advance (qs : List Question) (i : Nat) (ups : List (Nat × List Nat))
    (t c : Nat) (h : i + 1 < qs.length) :
    run (midState qs i ups t) (answerTrace c)
      = midState qs (i + 1) (ups ++ [(qidOf qs i, payloadOf c)]) (t + 1) := by
  by_cases hc : c = 0
  · simp [answerTrace, run, step, dataStep, clickNextStep, stopFiredStep, forcedResume,
      uploadAnswerStart, uploadResultStep, startRecording, midState, qidAt, qidOf,
      payloadOf, hc, h]
  · have hpos : 0 < c := Nat.pos_of_ne_zero hc
    simp [answerTrace, run, step, dataStep, clickNextStep, stopFiredStep, forcedResume,
      uploadAnswerStart, uploadResultStep, startRecording, midState, qidAt, qidOf,
      payloadOf, hc, hpos, h]

/-- Answering the last question appends its upload and ends the session
through the analysis response, with no further upload. -/
theorem answerTrace_last (qs : List Question) (i : Nat) (ups : List (Nat × List Nat))
    (t c : Nat) (h : i + 1 = qs.length) :
    (run (midState qs i ups t) (answerTrace c ++ [Event.analyzeResult true])).uploads
      = ups ++ [(qidOf qs i, payloadOf c)] := by
  by_cases hc : c = 0
  · simp [answerTrace, run, step, dataStep, clickNextStep, stopFiredStep, forcedResume,
      uploadAnswerStart, uploadResultStep, analyzeResultStep, midState, qidAt, qidOf,
      payloadOf, hc, h]
  · have hpos : 0 < c := Nat.pos_of_ne_zero hc
    simp [answerTrace, run, step, dataStep, clickNextStep, stopFiredStep, forcedResume,
      uploadAnswerStart, uploadResultStep, analyzeResultStep, midState, qidAt, qidOf,
      payloadOf, hc, hpos, h]

/-- One submission per remaining question, by induction over the
per-question event blocks of the user-driven run. -/
theorem fullTrace_uploads :
    ∀ (cs : List Nat) (qs : List Question) (i : Nat) (ups : List (Nat × List Nat))
      (t : Nat), cs ≠ [] → i + cs.length = qs.length →
      (run (midState qs i ups t) (fullTrace cs)).uploads.map Prod.fst
        = ups.map Prod.fst ++ (qs.drop i).map Question.id
  | [], _, _, _, _, hne, _ => absurd rfl hne
  | [c], qs, i, ups, t, _, hlen => by
      have hone : i + 1 = qs.length := by simpa using hlen
      have hi : i < qs.length := by omega
      have hq : qidOf qs i = (qs[i]).id := by
        unfold qidOf
        rw [List.get?_eq_getElem?, List.getElem?_eq_getElem hi]
      have hdrop : qs.drop i = [qs[i]] := by
        rw [List.drop_eq_getElem_cons hi, List.drop_eq_nil_of_le (by omega)]
      have hrw : fullTrace [c] = answerTrace c ++ [Event.analyzeResult true] := rfl
      rw [hrw, answerTrace_last qs i ups t c hone]
      simp [hdrop, hq]
  | c :: c2 :: cs2, qs, i, ups, t, _, hlen => by
      have hstep : i + 1 < qs.length := by simp at hlen; omega
      have hi : i < qs.length := by omega
      have hq : qidOf qs i = (qs[i]).id := by
        unfold qidOf
        rw [List.get?_eq_getElem?, List.getElem?_eq_getElem hi]
      have hmap : (qs.drop i).map Question.id
          = (qs[i]).id :: (qs.drop (i + 1)).map Question.id := by
        rw [List.drop_eq_getElem_cons hi, List.map_cons]
      have hrw : fullTrace (c :: c2 :: cs2) = answerTrace c ++ fullTrace (c2 :: cs2) := rfl
      rw [hrw, run_append, answerTrace_advance qs i ups t c hstep,
        fullTrace_uploads (c2 :: cs2) qs (i + 1) (ups ++ [(qidOf qs i, payloadOf c)])
          (t + 1) (by simp) (by simp at hlen ⊢; omega),
        hmap]
      simp [hq]

/-- C1: across a full session run over a non-empty question sequence in
which every question's recording is ended, exactly one upload submission is
sent per question id, none duplicated and none omitted.  Forced advance is
the only trigger that ends a recording — an interval tick never changes the
recording flag, queues a stop, or uploads, so the timer-expiry alternative
named by the claim is vacuous — and the user-driven run submits the
questions' ids in order, whether or not audio chunks arrived. -/
theorem c1_full_run_one_submission_per_question (qs : List Question) (cs : List Nat)
    (hne : qs ≠ []) (hlen : cs.length = qs.length) :
    (run (initState qs) (fullTrace cs)).uploads.map Prod.fst = qs.map Question.id ∧
    ∀ s : SessionState, (tickStep s).recording = s.recording ∧
      (tickStep s).stopPending = s.stopPending ∧ (tickStep s).uploads = s.uploads := by
  constructor
  · have h0 : (qs.get? 0).isSome = true := by
      cases qs with
      | nil => exact absurd rfl hne
      | cons q qs2 => rfl
    have hcs : cs ≠ [] := by
      intro hnil
      rw [hnil] at hlen
      exact hne (List.length_eq_zero.mp hlen.symm)
    have h := fullTrace_uploads cs qs 0 [] 1 hcs (by simpa using hlen)
    rw [initState_eq_midState qs h0, h]
    simp
  · intro s
    unfold tickStep stopRecording
    split_ifs <;> simp_all

/-- C1 witness: the two-question session driven by forced advances, question
0 delivering a 5-byte chunk and question 1 none, submits exactly ids 1 then
2. -/
theorem c1_full_run_one_submission_per_question_witness :
    (run (initState demoTwoQ) (fullTrace [5, 0])).uploads.map Prod.fst
      = demoTwoQ.map Question.id :=
  (c1_full_run_one_submission_per_question demoTwoQ [5, 0] (by decide) (by decide)).1

/-- C2: for a single recording, the two signals can occur only with the
forced advance first — delivering the recorder's stop completion from a
state with no stop requested is a no-op, and an interval tick never requests
one — and in that order exactly one upload call results; even a duplicate
delivery of the stop completion adds nothing. -/
theorem c2_dual_trigger_exactly_one_upload (s : SessionState)
    (hrec : s.recorderPresent = true) (hr : s.recording = true)
    (hu : s.uploading = false) (ha : s.analyzing = false)
    (hsp : s.stopPending = false) :
    (run s [Event.clickNext, Event.stopFired]).uploads.length = s.uploads.length + 1 ∧
    (run s [Event.clickNext, Event.stopFired, Event.stopFired]).uploads.length
      = s.uploads.length + 1 ∧
    step s Event.stopFired = s ∧
    (tickStep s).stopPending = false := by
  obtain ⟨qs, idx, rec, tl, up, an, st, ch, rp, onf, sp, ul, ats, trl, ifu, ifa, ups, ac, cc⟩ := s
  simp only at hrec hr hu ha hsp
  subst hrec hr hu ha hsp
  refine ⟨?_, ?_, ?_, ?_⟩
  · cases ch <;>
      simp [run, step, clickNextStep, stopFiredStep, forcedResume, uploadAnswerStart]
  · cases ch <;>
      simp [run, step, clickNextStep, stopFiredStep, forcedResume, uploadAnswerStart]
  · simp [step, stopFiredStep]
  · unfold tickStep stopRecording
    split_ifs <;> simp_all

/-- C2 witness: from the fresh two-question session, forced advance then the
stop completion (even delivered twice) produces exactly one upload, a
premature stop delivery is a no-op, and a tick queues no stop. -/
theorem c2_dual_trigger_exactly_one_upload_witness :
    (run (initState demoTwoQ) [Event.clickNext, Event.stopFired]).uploads.length
      = (initState demoTwoQ).uploads.length + 1 ∧
    (run (initState demoTwoQ)
        [Event.clickNext, Event.stopFired, Event.stopFired]).uploads.length
      = (initState demoTwoQ).uploads.length + 1 ∧
    step (initState demoTwoQ) Event.stopFired = initState demoTwoQ ∧
    (tickStep (initState demoTwoQ)).stopPending = false :=
  c2_dual_trigger_exactly_one_upload (initState demoTwoQ)
    (by decide) (by decide) (by decide) (by decide) (by decide)

/-- C3: the claim says a recording stopped by timer expiry has the lock
unset beforehand and the natural stop handler performs the upload.
Evaluating the code on a 1-second question with a captured chunk: the
expiring tick clamps the clock to zero but leaves the recorder recording —
the interval's stale `stopRecording` closure reads `recording = false`, so
no stop is requested, no lock is touched, the natural handler never runs and
nothing is uploaded; and the `stopRecording` body itself, were it ever
reached with a live snapshot, sets the lock before stopping (line 125), the
opposite of what the claim requires. -/
theorem c3_timer_expiry_never_stops_recording :
    (run (initState [⟨3, "q", some 1⟩]) [Event.dataAvailable 7, Event.tick]).timeLeft = 0 ∧
    (run (initState [⟨3, "q", some 1⟩]) [Event.dataAvailable 7, Event.tick]).recording = true ∧
    (run (initState [⟨3, "q", some 1⟩]) [Event.dataAvailable 7, Event.tick]).stopPending = false ∧
    (run (initState [⟨3, "q", some 1⟩]) [Event.dataAvailable 7, Event.tick]).uploadLocked = false ∧
    (run (initState [⟨3, "q", some 1⟩])
      [Event.dataAvailable 7, Event.tick, Event.stopFired]).uploads = [] ∧
    (stopRecording true (run (initState [⟨3, "q", some 1⟩])
      [Event.dataAvailable 7, Event.tick])).uploadLocked = true := by
  decide

/-- C4: the claim says the countdown timer is disarmed whenever a recording
stops, so a stale tick never fires against a later question's recording.
Evaluating the code on a forced advance from question 0 to question 1:
`handleNextQuestion` never clears the interval and `startRecording`
overwrites `timerRef` with a fresh one, so while question 1 is recording two
intervals are live, and one simulated second (both intervals ticking) drains
the 5-second countdown by 2. -/
theorem c4_forced_advance_leaves_stale_timer_armed :
    (run (initState demoTwoQ)
      [Event.dataAvailable 4, Event.clickNext, Event.stopFired,
        Event.uploadResult true]).recording = true ∧
    (run (initState demoTwoQ)
      [Event.dataAvailable 4, Event.clickNext, Event.stopFired,
        Event.uploadResult true]).idx = 1 ∧
    (run (initState demoTwoQ)
      [Event.dataAvailable 4, Event.clickNext, Event.stopFired,
        Event.uploadResult true]).activeTimers = 2 ∧
    (run (initState demoTwoQ)
      [Event.dataAvailable 4, Event.clickNext, Event.stopFired,
        Event.uploadResult true, Event.tick, Event.tick]).timeLeft = 3 := by
  decide

/-- C5: a recording that finishes with zero accumulated chunks still yields
a submission — an empty-payload blob — for its question; the question is not
silently skipped.  Forced advance is the only trigger that finishes a
recording (an interval tick leaves the recording flag untouched, so the
claim's timer-expiry alternative is vacuous), and its resume path submits
the empty blob. -/
theorem c5_zero_chunk_recording_still_submitted (s : SessionState)
    (hrec : s.recorderPresent = true) (hr : s.recording = true)
    (hu : s.uploading = false) (ha : s.analyzing = false)
    (hc : s.chunks = []) :
    (run s [Event.clickNext, Event.stopFired]).uploads = s.uploads ++ [(qidAt s, [])] ∧
    (tickStep s).recording = true := by
  obtain ⟨qs, idx, rec, tl, up, an, st, ch, rp, onf, sp, ul, ats, trl, ifu, ifa, ups, ac, cc⟩ := s
  simp only at hrec hr hu ha hc
  subst hrec hr hu ha hc
  constructor
  · simp [run, step, clickNextStep, stopFiredStep, forcedResume, uploadAnswerStart, qidAt]
  · unfold tickStep stopRecording
    split_ifs <;> simp_all

/-- C5 witness: a forced advance on the fresh two-question session, before
any chunk arrives, submits the empty blob for question 1. -/
theorem c5_zero_chunk_recording_still_submitted_witness :
    (run (initState demoTwoQ) [Event.clickNext, Event.stopFired]).uploads
      = (initState demoTwoQ).uploads ++ [(qidAt (initState demoTwoQ), [])] ∧
    (tickStep (initState demoTwoQ)).recording = true :=
  c5_zero_chunk_recording_still_submitted (initState demoTwoQ)
    (by decide) (by decide) (by decide) (by decide) (by decide)

/-- C6: a second forced-advance issued before the first one's recording stop
and upload have resolved leaves the state unchanged (its `waitForStop`
resolver replaces the first and the recorder is already stopping), so the
run performs exactly one upload and exactly one question-index transition. -/
theorem c6_double_forced_advance_single_transition (s : SessionState)
    (hrec : s.recorderPresent = true) (hr : s.recording = true)
    (hu : s.uploading = false) (ha : s.analyzing = false)
    (hidx : s.idx + 1 < s.questions.length) :
    (run s [Event.clickNext, Event.clickNext, Event.stopFired,
        Event.uploadResult true]).idx = s.idx + 1 ∧
    (run s [Event.clickNext, Event.clickNext, Event.stopFired,
        Event.uploadResult true]).uploads.length = s.uploads.length + 1 := by
  obtain ⟨qs, idx, rec, tl, up, an, st, ch, rp, onf, sp, ul, ats, trl, ifu, ifa, ups, ac, cc⟩ := s
  simp only at hrec hr hu ha hidx
  subst hrec hr hu ha
  cases ch <;> cases st <;>
    simp [run, step, clickNextStep, stopFiredStep, forcedResume, uploadAnswerStart,
      uploadResultStep, startRecording, hidx]

/-- C6 witness: instantiating the double forced-advance run on the fresh
two-question session. -/
theorem c6_double_forced_advance_single_transition_witness :
    (run (initState demoTwoQ) [Event.clickNext, Event.clickNext, Event.stopFired,
        Event.uploadResult true]).idx = (initState demoTwoQ).idx + 1 ∧
    (run (initState demoTwoQ) [Event.clickNext, Event.clickNext, Event.stopFired,
        Event.uploadResult true]).uploads.length = (initState demoTwoQ).uploads.length + 1 :=
  c6_double_forced_advance_single_transition (initState demoTwoQ)
    (by decide) (by decide) (by decide) (by decide) (by decide)

/-- C7: when the in-flight upload is for the last question and it resolves
successfully, exactly one analysis request is issued, and whichever way the
analysis fetch then resolves, the completion callback is invoked exactly
once (and no further analysis request is sent). -/
theorem c7_last_upload_single_analysis_single_completion (s : SessionState) (b : Bool)
    (hin : s.inFlightUpload = true)
    (hlast : s.idx + 1 = s.questions.length) :
    (run s [Event.uploadResult true, Event.analyzeResult b]).analyzeCalls
        = s.analyzeCalls + 1 ∧
    (run s [Event.uploadResult true, Event.analyzeResult b]).completeCalls
        = s.completeCalls + 1 := by
  obtain ⟨qs, idx, rec, tl, up, an, st, ch, rp, onf, sp, ul, ats, trl, ifu, ifa, ups, ac, cc⟩ := s
  simp only at hin hlast
  subst hin
  simp [run, step, uploadResultStep, analyzeResultStep, hlast]

/-- C7 witness: the last (only) question of a one-question session is force
advanced, its upload succeeds and the analysis fetch fails; one analysis
request and one completion callback result. -/
theorem c7_last_upload_single_analysis_single_completion_witness :
    (run (run (initState [⟨1, "q", some 5⟩])
        [Event.dataAvailable 3, Event.clickNext, Event.stopFired])
      [Event.uploadResult true, Event.analyzeResult false]).analyzeCalls
        = (run (initState [⟨1, "q", some 5⟩])
            [Event.dataAvailable 3, Event.clickNext, Event.stopFired]).analyzeCalls + 1 ∧
    (run (run (initState [⟨1, "q", some 5⟩])
        [Event.dataAvailable 3, Event.clickNext, Event.stopFired])
      [Event.uploadResult true, Event.analyzeResult false]).completeCalls
        = (run (initState [⟨1, "q", some 5⟩])
            [Event.dataAvailable 3, Event.clickNext, Event.stopFired]).completeCalls + 1 :=
  c7_last_upload_single_analysis_single_completion
    (run (initState [⟨1, "q", some 5⟩])
      [Event.dataAvailable 3, Event.clickNext, Event.stopFired]) false
    (by decide) (by decide)

/-- C8: when the in-flight upload resolves with a failure, the question index
is unchanged, no further upload request is sent (no retry), no analysis
request is issued, recording is not started by the upload path, and the
uploading flag is cleared with no fetch left in flight. -/
theorem c8_upload_failure_halts_progression (s : SessionState)
    (hin : s.inFlightUpload = true) :
    (uploadResultStep false s).idx = s.idx ∧
    (uploadResultStep false s).uploads = s.uploads ∧
    (uploadResultStep false s).analyzeCalls = s.analyzeCalls ∧
    (uploadResultStep false s).recording = s.recording ∧
    (uploadResultStep false s).uploading = false ∧
    (uploadResultStep false s).inFlightUpload = false := by
  obtain ⟨qs, idx, rec, tl, up, an, st, ch, rp, onf, sp, ul, ats, trl, ifu, ifa, ups, ac, cc⟩ := s
  simp only at hin
  subst hin
  simp [uploadResultStep]

/-- C8 witness: a failed upload after a forced advance on the two-question
session leaves the index at 0 with no retry and no analysis. -/
theorem c8_upload_failure_halts_progression_witness :
    (uploadResultStep false (run (initState demoTwoQ)
        [Event.dataAvailable 3, Event.clickNext, Event.stopFired])).idx
      = (run (initState demoTwoQ)
          [Event.dataAvailable 3, Event.clickNext, Event.stopFired]).idx ∧
    (uploadResultStep false (run (initState demoTwoQ)
        [Event.dataAvailable 3, Event.clickNext, Event.stopFired])).uploads
      = (run (initState demoTwoQ)
          [Event.dataAvailable 3, Event.clickNext, Event.stopFired]).uploads ∧
    (uploadResultStep false (run (initState demoTwoQ)
        [Event.dataAvailable 3, Event.clickNext, Event.stopFired])).analyzeCalls
      = (run (initState demoTwoQ)
          [Event.dataAvailable 3, Event.clickNext, Event.stopFired]).analyzeCalls ∧
    (uploadResultStep false (run (initState demoTwoQ)
        [Event.dataAvailable 3, Event.clickNext, Event.stopFired])).recording
      = (run (initState demoTwoQ)
          [Event.dataAvailable 3, Event.clickNext, Event.stopFired]).recording ∧
    (uploadResultStep false (run (initState demoTwoQ)
        [Event.dataAvailable 3, Event.clickNext, Event.stopFired])).uploading = false ∧
    (uploadResultStep false (run (initState demoTwoQ)
        [Event.dataAvailable 3, Event.clickNext, Event.stopFired])).inFlightUpload = false :=
  c8_upload_failure_halts_progression
    (run (initState demoTwoQ) [Event.dataAvailable 3, Event.clickNext, Event.stopFired])
    (by decide)

/-- C9: when recording starts for the current question, the countdown is
armed (one interval added) with duration 90 if the question's
`estimated_seconds` is absent or zero, and with `estimated_seconds`
otherwise. -/
theorem c9_timer_duration_defaults_to_ninety (s : SessionState) (q : Question)
    (hs : s.streamSet = true) (hr : s.recording = false)
    (hq : s.questions.get? s.idx = some q) :
    ((q.estimatedSeconds = none ∨ q.estimatedSeconds = some 0) →
        (startRecording s).timeLeft = 90) ∧
    (∀ n, q.estimatedSeconds = some n → n ≠ 0 → (startRecording s).timeLeft = n) ∧
    (startRecording s).activeTimers = s.activeTimers + 1 := by
  obtain ⟨qs, idx, rec, tl, up, an, st, ch, rp, onf, sp, ul, ats, trl, ifu, ifa, ups, ac, cc⟩ := s
  simp only at hs hr hq
  subst hs hr
  rw [List.get?_eq_getElem?] at hq
  refine ⟨?_, ?_, ?_⟩
  · rintro (h | h) <;> simp [startRecording, questionTime, hq, h]
  · rintro n h hn
    obtain _ | m := n
    · exact absurd rfl hn
    · simp [startRecording, questionTime, hq, h]
  · simp [startRecording]

/-- C9 witness: a question with `estimated_seconds = 0` is armed at 90
seconds, and one with 42 is armed at 42. -/
theorem c9_timer_duration_defaults_to_ninety_witness :
    (startRecording (baseState [⟨1, "q", some 0⟩])).timeLeft = 90 ∧
    (startRecording (baseState [⟨1, "q", some 42⟩])).timeLeft = 42 ∧
    (startRecording (baseState [⟨1, "q", some 0⟩])).activeTimers
        = (baseState [⟨1, "q", some 0⟩]).activeTimers + 1 :=
  ⟨(c9_timer_duration_defaults_to_ninety (baseState [⟨1, "q", some 0⟩]) ⟨1, "q", some 0⟩
      (by decide) (by decide) (by decide)).1 (Or.inr rfl),
   (c9_timer_duration_defaults_to_ninety (baseState [⟨1, "q", some 42⟩]) ⟨1, "q", some 42⟩
      (by decide) (by decide) (by decide)).2.1 42 rfl (by decide),
   (c9_timer_duration_defaults_to_ninety (baseState [⟨1, "q", some 0⟩]) ⟨1, "q", some 0⟩
      (by decide) (by decide) (by decide)).2.2⟩

/-- C10: `startRecording` is a no-op whenever no stream has been acquired or
a recording is already active — the state, including the chunk buffer, the
upload lock and the recorder, is exactly preserved, so a re-entrant start
never clobbers an in-progress recording. -/
theorem c10_start_recording_reentrant_noop (s : SessionState)
    (h : s.streamSet = false ∨ s.recording = true) :
    startRecording s = s := by
  unfold startRecording
  rcases h with h | h <;> simp [h]

/-- C10 witness: calling `startRecording` on the fresh two-question session,
which is already recording question 0, changes nothing. -/
theorem c10_start_recording_reentrant_noop_witness :
    startRecording (initState demoTwoQ) = initState demoTwoQ :=
  c10_start_recording_reentrant_noop (initState demoTwoQ) (Or.inr (by decide))
